import Mathlib

/-!
Verification of the Versich-Treue training-pipeline core against its
specification.  The Python components under `src/` are shallowly embedded:
pure computations become Lean functions over `ℚ` (exact rationals standing
for Python floats), side effects (directory creation, file writes, S3
uploads) are recorded in explicit effect lists, raised exceptions become
`Except` errors, and external collaborators (the MongoDB fetch, the S3
object store, the sklearn classifier and scorers) enter as explicit oracle
inputs, so that every control-flow decision written in the Python source is
reproduced here and nothing else is.
-/

/- ## Python float rounding

`round(x, 5)` in Python rounds to 5 decimal places with ties going to the
nearest even multiple (banker's rounding).  We model it exactly on ℚ.
`qfloor` is a computable floor (the `FloorRing` projection does not reduce
in the kernel). -/

/-- Computable floor of a rational, via flooring integer division. -/
def qfloor (q : ℚ) : ℤ := q.num.fdiv q.den

/-- One half, written without `Rat.div` so that it kernel-reduces. -/
def qhalf : ℚ := mkRat 1 2

theorem qfloor_eq (q : ℚ) : qfloor q = ⌊q⌋ := by
  rw [Rat.floor_def, qfloor, Int.fdiv_eq_ediv _ (Int.natCast_nonneg _)]

theorem qfloor_cast_le (q : ℚ) : (qfloor q : ℚ) ≤ q := by
  rw [qfloor_eq]
  exact Int.floor_le q

theorem qhalf_eq : qhalf = 1/2 := by
  rw [qhalf, Rat.mkRat_eq_div]
  norm_num

/-- Round a rational to the nearest integer, ties to even
(Python's built-in `round` with the `ndigits` scaling absorbed). -/
def roundHalfEven (q : ℚ) : ℤ :=
  if q - (qfloor q : ℚ) < qhalf then qfloor q
  else if qhalf < q - (qfloor q : ℚ) then qfloor q + 1
  else if qfloor q % 2 = 0 then qfloor q else qfloor q + 1

/-- Python's `round(x, 5)`: round to the nearest multiple of `1/100000`,
ties to even. -/
def round5 (q : ℚ) : ℚ :=
  mkRat (roundHalfEven (q * 100000)) 100000

theorem roundHalfEven_le_int {q : ℚ} {n : ℤ} (h : q ≤ (n : ℚ)) :
    roundHalfEven q ≤ n := by
  have hf : qfloor q ≤ n := by
    have h2 : (qfloor q : ℚ) ≤ (n : ℚ) := le_trans (qfloor_cast_le q) h
    exact_mod_cast h2
  unfold roundHalfEven
  by_cases h1 : q - (qfloor q : ℚ) < qhalf
  · simp only [if_pos h1]
    exact hf
  · have hlt : qfloor q + 1 ≤ n := by
      rcases lt_or_eq_of_le hf with h' | h'
      · omega
      · exfalso
        apply h1
        have hq : q ≤ (qfloor q : ℚ) := by
          rw [h']
          exact_mod_cast h
        have hq2 : (qfloor q : ℚ) ≤ q := qfloor_cast_le q
        rw [qhalf_eq]
        linarith
    simp only [if_neg h1]
    split_ifs <;> omega

theorem round5_le_one {a : ℚ} (h : a ≤ 1) : round5 a ≤ 1 := by
  have h1 : a * 100000 ≤ ((100000 : ℤ) : ℚ) := by
    push_cast
    linarith
  have h2 : roundHalfEven (a * 100000) ≤ 100000 := roundHalfEven_le_int h1
  unfold round5
  rw [Rat.mkRat_eq_div, div_le_one (by norm_num)]
  exact_mod_cast h2

/- ## Shared data model

Tabular data (a pandas DataFrame), recorded side effects, and the artifact
dataclasses of `src/entity/artifact_entity.py`. -/

/-- A tabular data set: column names plus rows of cells.  The validation
checks only look at columns; ingestion only counts rows. -/
structure Df where
  cols : List String
  rows : List (List String)
deriving DecidableEq

/-- Model of `pandas.DataFrame.empty`: true when either axis is empty. -/
def Df.isEmptyFrame (df : Df) : Bool := df.rows.isEmpty || df.cols.isEmpty

/-- Model of `os.path.dirname`: the path up to the final slash. -/
def dirname (p : String) : String :=
  String.intercalate "/" (p.splitOn "/").dropLast

/-- Observable side effects of a component run, in program order. -/
inductive Effect where
  | makeDirs (dir : String)
  | writeCsv (path : String)
  | writeJson (path : String)
  | saveObject (path : String)
  | saveNumpy (path : String)
  | uploadS3 (bucket : String) (key : String)
deriving DecidableEq

/-- Artifact of the ingestion stage (`DataIngestionArtifacts`). -/
structure DataIngestionArtifacts where
  train_filepath : String
  test_filepath : String
deriving DecidableEq

/-- Artifact of the validation stage (`DataValidationArtifacts`). -/
structure DataValidationArtifacts where
  data_validation_status : Bool
  data_validation_message : String
  data_validation_report_filepath : String
deriving DecidableEq

/-- Artifact of the transformation stage (`DataTransformationArtifacts`). -/
structure DataTransformationArtifacts where
  data_transformation_object_filepath : String
  data_transformation_train_array_filepath : String
  data_transformation_test_array_filepath : String
deriving DecidableEq

/-- Metrics bundle (`ClassificationMetricsArtifacts`); the `precision` and
`recall` fields carry a trailing underscore because Lean reserves both
words. -/
structure ClassificationMetricsArtifacts where
  accuracy : ℚ
  precision_ : ℚ
  recall_ : ℚ
  log_loss_ : ℚ
  f1_score_ : ℚ
  roc_auc : ℚ
deriving DecidableEq

/-- Artifact of the training stage (`ModelTrainingArtifacts`). -/
structure ModelTrainingArtifacts where
  trained_model_filepath : String
  report_filepath : String
  classification_metrics_artifacts : ClassificationMetricsArtifacts
deriving DecidableEq

/-- Artifact of the evaluation stage (`ModelEvaluationArtifacts`). -/
structure ModelEvaluationArtifacts where
  model_acceptance : Bool
  trained_model_path : String
  s3_model_path : String
  accuracy_discrepancy : ℚ
deriving DecidableEq

/-- Artifact of the deployment stage (`ModelDeploymentArtifacts`). -/
structure ModelDeploymentArtifacts where
  bucket_name : String
  s3_model_path : String
deriving DecidableEq

/- ## Data ingestion (`src/components/data_ingestion.py`) -/

/-- Configuration slice of `DataIngestionConfig` consumed by the component. -/
structure DataIngestionConfig where
  data_filepath : String
  train_data_filepath : String
  test_data_filepath : String
  test_size : ℚ
  collection_name : String
deriving DecidableEq

/-- One step of a linear congruential generator; stands in for the seeded
pseudo-random source inside the external splitter (any fixed function of the
seed serves here: only determinism in the seed is at stake). -/
def lcgStep (s : Nat) : Nat := (1664525 * s + 1013904223) % 4294967296

/-- Seed-driven Fisher-Yates walk (fuelled by the starting length),
modelling the permutation the external splitter draws from its seed. -/
def shuffleAux {α : Type} : Nat → Nat → List α → List α
  | 0, _, _ => []
  | _ + 1, _, [] => []
  | n + 1, seed, x :: xs =>
    let i := seed % (x :: xs).length
    (x :: xs).get ⟨i, Nat.mod_lt _ (Nat.succ_pos xs.length)⟩ ::
      shuffleAux n (lcgStep seed) ((x :: xs).eraseIdx i)

/-- Shuffle a list deterministically from a seed. -/
def shuffleWith {α : Type} (seed : Nat) (l : List α) : List α :=
  shuffleAux l.length seed l

/-- Computable ceiling, for the external splitter's test-row count. -/
def qceil (q : ℚ) : ℤ := -(qfloor (-q))

/-- Model of `sklearn.model_selection.train_test_split` as called here:
shuffle the rows with a generator seeded by `random_state` - falling back
to ambient entropy when it is `none` - and split off `ceil(n * test_size)`
rows as the test partition. -/
def train_test_split {α : Type} (rows : List α) (test_size : ℚ)
    (random_state : Option Nat) (entropy : Nat) : List α × List α :=
  let seed := random_state.getD entropy
  let shuffled := shuffleWith seed rows
  let nTest := (qceil ((rows.length : ℚ) * test_size)).toNat
  (shuffled.drop nTest, shuffled.take nTest)

/-- Embeds `DataIngestion._export_data_to_feature_store`: the Mongo export
(oracle input `fetched`) is saved, exactly as fetched, to the feature-store
path, creating its directory first. -/
def export_data_to_feature_store (cfg : DataIngestionConfig) (fetched : Df) :
    Df × List Effect :=
  (fetched,
   [Effect.makeDirs (dirname cfg.data_filepath),
    Effect.writeCsv cfg.data_filepath])

/-- Embeds `DataIngestion._train_test_splitting`: split with the literal
`random_state=42` and write both partitions. -/
def train_test_splitting (cfg : DataIngestionConfig) (df : Df) (entropy : Nat) :
    (List (List String) × List (List String)) × List Effect :=
  (train_test_split df.rows cfg.test_size (some 42) entropy,
   [Effect.makeDirs (dirname cfg.train_data_filepath),
    Effect.writeCsv cfg.train_data_filepath,
    Effect.writeCsv cfg.test_data_filepath])

/-- Embeds `DataIngestion.initiate_data_ingestion`: export to the feature
store first, then the emptiness check, then the split. -/
def initiate_data_ingestion (cfg : DataIngestionConfig) (fetched : Df)
    (entropy : Nat) : Except String DataIngestionArtifacts × List Effect :=
  let ex := export_data_to_feature_store cfg fetched
  if ex.1.isEmptyFrame then
    (Except.error "Exported dataframe is empty.", ex.2)
  else
    let sp := train_test_splitting cfg ex.1 entropy
    (Except.ok
      { train_filepath := cfg.train_data_filepath,
        test_filepath := cfg.test_data_filepath },
     ex.2 ++ sp.2)

/- ## Data validation (`src/components/data_validation.py`) -/

/-- Schema slice loaded from `config/schema.yaml` that validation reads. -/
structure SchemaConfig where
  features : List String
  numerical_features : List String
  categorical_features : List String
deriving DecidableEq

/-- Configuration slice of `DataValidationConfig`. -/
structure DataValidationConfig where
  data_validation_reports_filepath : String
deriving DecidableEq

/-- Embeds `DataValidation.features_count_validate`. -/
def features_count_validate (schema : SchemaConfig) (df : Df) : Bool :=
  df.cols.length == schema.features.length

/-- Embeds `DataValidation.features_exist`. -/
def features_exist (schema : SchemaConfig) (df : Df) : Bool :=
  let missing_numerical :=
    schema.numerical_features.filter (fun f => !(df.cols.contains f))
  let missing_categorical :=
    schema.categorical_features.filter (fun f => !(df.cols.contains f))
  missing_numerical.length == 0 && missing_categorical.length == 0

/-- Model of `str.strip()`: remove leading and trailing whitespace. -/
def pyStrip (s : String) : String :=
  let isWs := fun c => c == ' ' || c == '\n' || c == '\t' || c == '\r'
  String.mk (((s.data.dropWhile isWs).reverse.dropWhile isWs).reverse)

/-- Message appended when the training partition fails the count check. -/
def trainCountMsg : String := "Training data feature count mismatch with schema."

/-- Message appended when the training partition misses required features. -/
def trainExistMsg : String :=
  "Training data missing required numerical/categorical features."

/-- Message appended when the test partition fails the count check. -/
def testCountMsg : String := "Test data feature count mismatch with schema."

/-- Message appended when the test partition misses required features. -/
def testExistMsg : String :=
  "Test data missing required numerical/categorical features."

/-- The message buffer of `initiate_data_validation`: the four checks, in
source order, append their fixed lines to an initially empty string. -/
def validationBuffer (schema : SchemaConfig) (train_df test_df : Df) : String :=
  (if !(features_count_validate schema train_df) then trainCountMsg ++ "\n" else "")
  ++ (if !(features_exist schema train_df) then trainExistMsg ++ "\n" else "")
  ++ (if !(features_count_validate schema test_df) then testCountMsg ++ "\n" else "")
  ++ (if !(features_exist schema test_df) then testExistMsg ++ "\n" else "")

/-- Embeds `DataValidation.initiate_data_validation`: the four checks append
their fixed lines to the message buffer; status is emptiness of the buffer;
the report is written and the artifact carries the stripped message. -/
def initiate_data_validation (schema : SchemaConfig) (cfg : DataValidationConfig)
    (train_df test_df : Df) : DataValidationArtifacts × List Effect :=
  let data_validation_message := validationBuffer schema train_df test_df
  let data_validation_status := data_validation_message.length == 0
  ({ data_validation_status := data_validation_status,
     data_validation_message := pyStrip data_validation_message,
     data_validation_report_filepath := cfg.data_validation_reports_filepath },
   [Effect.makeDirs (dirname cfg.data_validation_reports_filepath),
    Effect.writeJson cfg.data_validation_reports_filepath])

/- ## Model training (`src/components/model_training.py`) -/

/-- Configuration slice of `ModelTrainingConfig` consumed by the component
(the RandomForest hyperparameters influence only the oracle predictions). -/
structure ModelTrainingConfig where
  trained_model_filepath : String
  report_filepath : String
  threshold_accuracy : ℚ
deriving DecidableEq

/-- Model of `sklearn.metrics.accuracy_score`: the fraction of positions
where the prediction equals the truth. -/
def accuracy_score (y_true y_pred : List ℚ) : ℚ :=
  mkRat ((y_true.zip y_pred).countP (fun ab => ab.1 == ab.2) : Int)
    y_true.length

/-- Embeds `ModelTraining.get_classification_report`: the six metrics dict,
each rounded to 5 places.  The classifier's predictions on the test rows and
the five sklearn scores other than accuracy are oracle inputs. -/
def get_classification_report (y_true y_pred : List ℚ)
    (precisionScore recallScore loglossScore f1Score rocaucScore : ℚ) :
    ClassificationMetricsArtifacts :=
  { accuracy := round5 (accuracy_score y_true y_pred)
    precision_ := round5 precisionScore
    recall_ := round5 recallScore
    log_loss_ := round5 loglossScore
    f1_score_ := round5 f1Score
    roc_auc := round5 rocaucScore }

/-- Embeds `ModelTraining.initiate_model_training`: compute the metrics,
fail before persisting anything when the rounded accuracy is below the
threshold, otherwise save the model bundle and the metrics report and
return the training artifact. -/
def initiate_model_training (cfg : ModelTrainingConfig) (y_true y_pred : List ℚ)
    (precisionScore recallScore loglossScore f1Score rocaucScore : ℚ) :
    Except String ModelTrainingArtifacts × List Effect :=
  let metrics := get_classification_report y_true y_pred
    precisionScore recallScore loglossScore f1Score rocaucScore
  if metrics.accuracy < cfg.threshold_accuracy then
    (Except.error "Model accuracy below threshold", [])
  else
    (Except.ok
      { trained_model_filepath := cfg.trained_model_filepath,
        report_filepath := cfg.report_filepath,
        classification_metrics_artifacts := metrics },
     [Effect.saveObject cfg.trained_model_filepath,
      Effect.writeJson cfg.report_filepath])

/- ## Model evaluation (`src/components/model_evaluation.py`) -/

/-- Python exception shapes that the evaluation and S3-estimator code can
surface. -/
inductive PyExc where
  | nameError (n : String)
  | typeError (msg : String)
  | myException (cause : PyExc)
deriving DecidableEq

/-- Configuration slice of `ModelEvaluationConfig`. -/
structure ModelEvaluationConfig where
  model_evaluation_report_filepath : String
  bucket_name : String
  s3_model_key_path : String
deriving DecidableEq

/-- Return value of `evaluate_model` (`EvaluateModelResponse`). -/
structure EvaluateModelResponse where
  model_acceptance : Bool
  trained_model_f1_score : ℚ
  fetched_model_f1_score : ℚ
  accuracy_discrepancy : ℚ
deriving DecidableEq

/-- The JSON report `evaluate_model` writes, field for field. -/
structure ModelEvaluationReport where
  modelAccepted : Bool
  trainedModelF1 : ℚ
  fetchedModelF1 : ℚ
  accuracyDiscrepancy : ℚ
deriving DecidableEq

/-- Result bundle of the embedded `evaluate_model`. -/
structure EvaluateModelOutcome where
  response : EvaluateModelResponse
  report : ModelEvaluationReport
  effects : List Effect
deriving DecidableEq

/-- Embeds `ModelEvaluation.evaluate_model`.  `trained_model_accuracy` is
read from the training artifact; `s3_model_found` says whether
`fetch_best_model` returns an estimator (the key exists in the bucket).
When it does, the source immediately calls `s3_model.predict(X=X_test)`,
but `S3Estimator.predict` accepts `(self, df)` - the keyword `X` raises
`TypeError` unconditionally, which the method's except-clause wraps in
`MyException`, so the incumbent branch never produces a score and the
method raises instead of returning.  When no remote model is found,
`s3_model_accuracy` stays `None`, the falsy substitution
`0.0 if not s3_model_accuracy else round(s3_model_accuracy, 5)` makes it
`0.0`, the comparison and report follow - the report dict's two accuracy
fields are both filled from `s3_model_accuracy` in the source. -/
def evaluate_model (cfg : ModelEvaluationConfig) (trained_model_accuracy : ℚ)
    (s3_model_found : Bool) : Except PyExc EvaluateModelOutcome :=
  if s3_model_found then
    Except.error (PyExc.myException (PyExc.typeError "unexpected keyword argument X"))
  else
    let s3_model_accuracy : ℚ := 0
    let accuracy_discrepancy := trained_model_accuracy - s3_model_accuracy
    let model_acceptance := decide (s3_model_accuracy < trained_model_accuracy)
    Except.ok
      { response :=
          { model_acceptance := model_acceptance,
            trained_model_f1_score := trained_model_accuracy,
            fetched_model_f1_score := s3_model_accuracy,
            accuracy_discrepancy := accuracy_discrepancy },
        report :=
          { modelAccepted := model_acceptance,
            trainedModelF1 := round5 s3_model_accuracy,
            fetchedModelF1 := round5 s3_model_accuracy,
            accuracyDiscrepancy := round5 accuracy_discrepancy },
        effects := [Effect.writeJson cfg.model_evaluation_report_filepath] }

/-- Embeds `ModelEvaluation.initiate_model_evaluation`: a raising
`evaluate_model` is wrapped once more by this method's own except-clause;
otherwise the evaluation artifact is assembled from the response. -/
def initiate_model_evaluation (cfg : ModelEvaluationConfig)
    (training_artifacts : ModelTrainingArtifacts) (s3_model_found : Bool) :
    Except PyExc (ModelEvaluationArtifacts × List Effect) :=
  match evaluate_model cfg
      training_artifacts.classification_metrics_artifacts.accuracy s3_model_found with
  | Except.error exc => Except.error (PyExc.myException exc)
  | Except.ok outcome =>
    Except.ok
      ({ model_acceptance := outcome.response.model_acceptance,
         trained_model_path := training_artifacts.trained_model_filepath,
         s3_model_path := cfg.s3_model_key_path,
         accuracy_discrepancy := outcome.response.accuracy_discrepancy },
       outcome.effects)

/- ## Model deployment (`src/components/model_deployment.py`) -/

/-- Configuration slice of `ModelDeploymentConfig`. -/
structure ModelDeploymentConfig where
  bucket_name : String
  s3_model_key_path : String
deriving DecidableEq

/-- Embeds `ModelDeployment.initiate_model_deployment` together with the
called `S3Estimator.save_model`: an empty (falsy) trained-model path raises
before anything happens; a missing local file makes `save_model` raise its
`FileNotFoundError`; otherwise the bundle is uploaded to the configured
bucket and key and the confirmation artifact is returned.  Whether the
local file exists is the oracle input `local_file_present`. -/
def initiate_model_deployment (cfg : ModelDeploymentConfig)
    (ev : ModelEvaluationArtifacts) (local_file_present : Bool) :
    Except String ModelDeploymentArtifacts × List Effect :=
  if ev.trained_model_path == "" then
    (Except.error "No trained model path provided in evaluation artifacts", [])
  else if !local_file_present then
    (Except.error "Local model file does not exist", [])
  else
    (Except.ok
      { bucket_name := cfg.bucket_name,
        s3_model_path := cfg.s3_model_key_path },
     [Effect.uploadS3 cfg.bucket_name cfg.s3_model_key_path])

/- ## S3 estimator (`src/entity/s3_estimator.py`) -/

/-- Embeds `S3Estimator.load_model`, restricted to its control flow.  In the
source the not-found branch is `raise MyException(e, sys)` where the name
`e` is unbound at that point, so Python raises `NameError` while evaluating
the raise's arguments; the found branch calls
`SimpleStorageService.load_model` with keyword arguments `model_filename`
and `model_dirpath` that its signature `(model_filepath, bucket_name)` does
not accept, raising `TypeError` before any download happens.  Either
exception is caught by the method's except-clause and re-raised wrapped in
`MyException`. -/
def S3Estimator.load_model (Model : Type) (s3_model_found : Bool) :
    Except PyExc Model :=
  let body : Except PyExc Model :=
    if !s3_model_found then
      Except.error (PyExc.nameError "e")
    else
      Except.error (PyExc.typeError "unexpected keyword argument")
  match body with
  | Except.ok v => Except.ok v
  | Except.error exc => Except.error (PyExc.myException exc)

/- ## Pipeline orchestrator (`src/pipeline/training_pipeline.py`) -/

/-- The six stages, in the order `run_pipeline` starts them. -/
inductive Stage where
  | ingestion
  | validation
  | transformation
  | training
  | evaluation
  | deployment
deriving DecidableEq

/-- Oracle outcomes of the six `start_*` calls: what each stage would
produce (or the wrapped exception it would raise) given the artifacts it is
handed.  `run_pipeline` decides which of them actually run. -/
structure PipelineRun where
  ingestion_result : Except String DataIngestionArtifacts
  validation_result : DataIngestionArtifacts → Except String DataValidationArtifacts
  transformation_result : DataIngestionArtifacts → DataValidationArtifacts →
    Except String DataTransformationArtifacts
  training_result : DataTransformationArtifacts → Except String ModelTrainingArtifacts
  evaluation_result : DataIngestionArtifacts → DataTransformationArtifacts →
    ModelTrainingArtifacts → Except String ModelEvaluationArtifacts
  deployment_result : ModelEvaluationArtifacts → Except String ModelDeploymentArtifacts

/-- Embeds `TrainPipeline.run_pipeline`: strictly sequential stages, any
stage error propagates immediately, and after evaluation the single branch
`if not model_evaluation_artifacts.model_acceptance: return None` decides
whether deployment is started.  The second component is the trace of stages
actually started. -/
def run_pipeline (w : PipelineRun) :
    Except String (Option ModelDeploymentArtifacts) × List Stage :=
  match w.ingestion_result with
  | Except.error msg => (Except.error msg, [Stage.ingestion])
  | Except.ok ia =>
    match w.validation_result ia with
    | Except.error msg => (Except.error msg, [Stage.ingestion, Stage.validation])
    | Except.ok va =>
      match w.transformation_result ia va with
      | Except.error msg =>
        (Except.error msg, [Stage.ingestion, Stage.validation, Stage.transformation])
      | Except.ok ta =>
        match w.training_result ta with
        | Except.error msg =>
          (Except.error msg,
           [Stage.ingestion, Stage.validation, Stage.transformation, Stage.training])
        | Except.ok ma =>
          match w.evaluation_result ia ta ma with
          | Except.error msg =>
            (Except.error msg,
             [Stage.ingestion, Stage.validation, Stage.transformation,
              Stage.training, Stage.evaluation])
          | Except.ok ea =>
            if !ea.model_acceptance then
              (Except.ok none,
               [Stage.ingestion, Stage.validation, Stage.transformation,
                Stage.training, Stage.evaluation])
            else
              match w.deployment_result ea with
              | Except.error msg =>
                (Except.error msg,
                 [Stage.ingestion, Stage.validation, Stage.transformation,
                  Stage.training, Stage.evaluation, Stage.deployment])
              | Except.ok da =>
                (Except.ok (some da),
                 [Stage.ingestion, Stage.validation, Stage.transformation,
                  Stage.training, Stage.evaluation, Stage.deployment])

/- ## Helper evaluation lemmas -/

theorem accuracy_score_le_one (y_true y_pred : List ℚ) :
    accuracy_score y_true y_pred ≤ 1 := by
  unfold accuracy_score
  rw [Rat.mkRat_eq_div]
  rcases Nat.eq_zero_or_pos y_true.length with h | h
  · simp [h]
  · rw [div_le_one (by exact_mod_cast h)]
    have hc : (y_true.zip y_pred).countP (fun ab => ab.1 == ab.2)
        ≤ (y_true.zip y_pred).length := List.countP_le_length _
    have hz : (y_true.zip y_pred).length ≤ y_true.length := by
      rw [List.length_zip]
      exact Nat.min_le_left _ _
    exact_mod_cast le_trans hc hz

theorem round5_zero : round5 0 = 0 := by
  have h : roundHalfEven 0 = 0 := by
    simp only [roundHalfEven, qfloor, qhalf_eq]
    norm_num
  unfold round5
  rw [zero_mul, h]
  rfl

theorem round5_nine_tenths : round5 (mkRat 9 10) = mkRat 9 10 := by
  simp only [round5, roundHalfEven, qfloor_eq, qhalf_eq, Rat.mkRat_eq_div]
  norm_num

/- ## Concrete sample configurations shared by witnesses and
counterexamples -/

/-- Ingestion configuration with the repository's artifact layout and the
constant `TEST_SIZE = 0.2`. -/
def sampleIngestionConfig : DataIngestionConfig :=
  { data_filepath := "artifacts/run/data_ingestion/feature_store/data.csv",
    train_data_filepath := "artifacts/run/data_ingestion/ingested/train.csv",
    test_data_filepath := "artifacts/run/data_ingestion/ingested/test.csv",
    test_size := mkRat 1 5,
    collection_name := "Versich-Treue-Data" }

/-- Evaluation configuration with the repository's constants. -/
def sampleEvalConfig : ModelEvaluationConfig :=
  { model_evaluation_report_filepath :=
      "artifacts/run/model_evaluation/reports/report.yaml",
    bucket_name := "versich-treue",
    s3_model_key_path := "model.pkl" }

/-- Deployment configuration with the repository's constants. -/
def sampleDeploymentConfig : ModelDeploymentConfig :=
  { bucket_name := "versich-treue", s3_model_key_path := "model.pkl" }

/- ## C8 - split determinism -/

/-- C8: the train/test split is deterministic: `_train_test_splitting`
passes the literal seed `random_state=42` (not time-based), so two split
runs on the same table agree - whatever ambient entropy each run would
otherwise have drawn - yielding identical train and identical test
partitions. -/
theorem C8_split_deterministic (cfg : DataIngestionConfig) (df : Df)
    (entropy1 entropy2 : Nat) :
    train_test_splitting cfg df entropy1 = train_test_splitting cfg df entropy2 := rfl

/- ## C10 - load_model on an absent key -/

/-- C10: for an absent key (`s3_model_found()` false) `load_model` raises a
wrapped exception - the `NameError` from the unbound `e` in its raise
statement, wrapped by the method's except-clause - and for no key state can
a caller obtain a model object from it. -/
theorem C10_load_model_never_returns (Model : Type) (found : Bool) (m : Model) :
    S3Estimator.load_model Model false
      = Except.error (PyExc.myException (PyExc.nameError "e"))
    ∧ S3Estimator.load_model Model found ≠ Except.ok m := by
  refine ⟨rfl, ?_⟩
  cases found <;> simp [S3Estimator.load_model]

/- ## C4 - empty ingestion fetch -/

/-- C4 fails as stated: on a zero-row fetch the run does raise the
empty-dataset error, but the feature-store file under the run's artifact
directory has already been written when it does. -/
theorem C4_empty_fetch_counterexample :
    (initiate_data_ingestion sampleIngestionConfig (Df.mk ["Gender"] []) 0).1
      = Except.error "Exported dataframe is empty."
    ∧ Effect.writeCsv "artifacts/run/data_ingestion/feature_store/data.csv"
        ∈ (initiate_data_ingestion sampleIngestionConfig (Df.mk ["Gender"] []) 0).2 := by
  exact ⟨rfl, by decide⟩

/-- C4 (amended): a zero-row fetch makes `initiate_data_ingestion` raise the
empty-dataset error before the split, so no train/test partition file is
ever written - but only after `_export_data_to_feature_store` has already
created the feature-store directory and written the feature-store file. -/
theorem C4_empty_fetch_aborts_after_feature_store (cfg : DataIngestionConfig)
    (cols : List String) (entropy : Nat) :
    initiate_data_ingestion cfg (Df.mk cols []) entropy
      = (Except.error "Exported dataframe is empty.",
         [Effect.makeDirs (dirname cfg.data_filepath),
          Effect.writeCsv cfg.data_filepath]) := by
  simp [initiate_data_ingestion, export_data_to_feature_store, Df.isEmptyFrame]

/- ## C9 - deployment ignores the acceptance flag -/

/-- C9: deployment never re-reads `model_acceptance` (flipping the flag in
the evaluation artifact changes nothing), raises on a falsy trained-model
path, raises when the local bundle file is missing, and otherwise uploads
to exactly the configured bucket and key and returns a confirmation holding
exactly that bucket name and key. -/
theorem C9_deployment_ignores_acceptance (cfg : ModelDeploymentConfig)
    (ev : ModelEvaluationArtifacts) (local_file_present : Bool) :
    (∀ b : Bool,
      initiate_model_deployment cfg
        { ev with model_acceptance := b } local_file_present
        = initiate_model_deployment cfg ev local_file_present)
    ∧ (ev.trained_model_path = "" →
        initiate_model_deployment cfg ev local_file_present
          = (Except.error "No trained model path provided in evaluation artifacts",
             []))
    ∧ (ev.trained_model_path ≠ "" → local_file_present = false →
        initiate_model_deployment cfg ev local_file_present
          = (Except.error "Local model file does not exist", []))
    ∧ (ev.trained_model_path ≠ "" → local_file_present = true →
        initiate_model_deployment cfg ev local_file_present
          = (Except.ok
              { bucket_name := cfg.bucket_name,
                s3_model_path := cfg.s3_model_key_path },
             [Effect.uploadS3 cfg.bucket_name cfg.s3_model_key_path])) := by
  refine ⟨fun b => rfl, fun h => ?_, fun h hp => ?_, fun h hp => ?_⟩
  · simp [initiate_model_deployment, h]
  · subst hp
    simp [initiate_model_deployment, h]
  · subst hp
    simp [initiate_model_deployment, h]

/-- Evaluation artifact of an accepted model, for the deployment witness. -/
def sampleAcceptedEvalArtifacts : ModelEvaluationArtifacts :=
  { model_acceptance := true,
    trained_model_path := "artifacts/run/model_training/trained_model/model.pkl",
    s3_model_path := "model.pkl",
    accuracy_discrepancy := 0 }

theorem C9_deployment_ignores_acceptance_witness :
    initiate_model_deployment sampleDeploymentConfig sampleAcceptedEvalArtifacts true
      = (Except.ok { bucket_name := "versich-treue", s3_model_path := "model.pkl" },
         [Effect.uploadS3 "versich-treue" "model.pkl"]) :=
  (C9_deployment_ignores_acceptance sampleDeploymentConfig
      sampleAcceptedEvalArtifacts true).2.2.2 (by decide) rfl

/- ## C2 - rejection short-circuits deployment -/

/-- C2: when evaluation yields `model_acceptance = false`, `run_pipeline`
terminates normally with `none` and the deployment stage never starts (so
no remote write can occur); and in any run whatsoever, the deployment stage
appears in the trace only when that run's evaluation produced an artifact
with `model_acceptance = true`. -/
theorem C2_rejection_skips_deployment (w : PipelineRun)
    (ia : DataIngestionArtifacts) (va : DataValidationArtifacts)
    (ta : DataTransformationArtifacts) (ma : ModelTrainingArtifacts)
    (ea : ModelEvaluationArtifacts)
    (hi : w.ingestion_result = Except.ok ia)
    (hv : w.validation_result ia = Except.ok va)
    (ht : w.transformation_result ia va = Except.ok ta)
    (hm : w.training_result ta = Except.ok ma)
    (he : w.evaluation_result ia ta ma = Except.ok ea)
    (hr : ea.model_acceptance = false) :
    run_pipeline w
      = (Except.ok none,
         [Stage.ingestion, Stage.validation, Stage.transformation,
          Stage.training, Stage.evaluation])
    ∧ (∀ w2 : PipelineRun, Stage.deployment ∈ (run_pipeline w2).2 →
        ∃ ia2 ta2 ma2 ea2, w2.evaluation_result ia2 ta2 ma2 = Except.ok ea2
          ∧ ea2.model_acceptance = true) := by
  constructor
  · simp [run_pipeline, hi, hv, ht, hm, he, hr]
  · intro w2 hd
    rcases hw : w2.ingestion_result with msg | ia2
    · simp [run_pipeline, hw] at hd
    rcases hv2 : w2.validation_result ia2 with msg | va2
    · simp [run_pipeline, hw, hv2] at hd
    rcases ht2 : w2.transformation_result ia2 va2 with msg | ta2
    · simp [run_pipeline, hw, hv2, ht2] at hd
    rcases hm2 : w2.training_result ta2 with msg | ma2
    · simp [run_pipeline, hw, hv2, ht2, hm2] at hd
    rcases he2 : w2.evaluation_result ia2 ta2 ma2 with msg | ea2
    · simp [run_pipeline, hw, hv2, ht2, hm2, he2] at hd
    by_cases hacc : ea2.model_acceptance
    · exact ⟨ia2, ta2, ma2, ea2, he2, hacc⟩
    · rw [Bool.not_eq_true] at hacc
      simp [run_pipeline, hw, hv2, ht2, hm2, he2, hacc] at hd

/-- A pipeline run whose every stage succeeds and whose evaluation rejects
the trained model. -/
def rejectedPipelineRun : PipelineRun :=
  { ingestion_result := Except.ok
      { train_filepath := "train.csv", test_filepath := "test.csv" },
    validation_result := fun _ => Except.ok
      { data_validation_status := true, data_validation_message := "",
        data_validation_report_filepath := "report.yaml" },
    transformation_result := fun _ _ => Except.ok
      { data_transformation_object_filepath := "obj",
        data_transformation_train_array_filepath := "train.npy",
        data_transformation_test_array_filepath := "test.npy" },
    training_result := fun _ => Except.ok
      { trained_model_filepath := "model.pkl", report_filepath := "report.yaml",
        classification_metrics_artifacts :=
          { accuracy := mkRat 9 10, precision_ := mkRat 9 10,
            recall_ := mkRat 9 10, log_loss_ := mkRat 1 10,
            f1_score_ := mkRat 9 10, roc_auc := mkRat 9 10 } },
    evaluation_result := fun _ _ _ => Except.ok
      { model_acceptance := false, trained_model_path := "model.pkl",
        s3_model_path := "model.pkl", accuracy_discrepancy := mkRat (-1) 10 },
    deployment_result := fun _ => Except.ok
      { bucket_name := "versich-treue", s3_model_path := "model.pkl" } }

theorem C2_rejection_skips_deployment_witness :
    run_pipeline rejectedPipelineRun
      = (Except.ok none,
         [Stage.ingestion, Stage.validation, Stage.transformation,
          Stage.training, Stage.evaluation]) :=
  (C2_rejection_skips_deployment rejectedPipelineRun
      { train_filepath := "train.csv", test_filepath := "test.csv" }
      { data_validation_status := true, data_validation_message := "",
        data_validation_report_filepath := "report.yaml" }
      { data_transformation_object_filepath := "obj",
        data_transformation_train_array_filepath := "train.npy",
        data_transformation_test_array_filepath := "test.npy" }
      { trained_model_filepath := "model.pkl", report_filepath := "report.yaml",
        classification_metrics_artifacts :=
          { accuracy := mkRat 9 10, precision_ := mkRat 9 10,
            recall_ := mkRat 9 10, log_loss_ := mkRat 1 10,
            f1_score_ := mkRat 9 10, roc_auc := mkRat 9 10 } }
      { model_acceptance := false, trained_model_path := "model.pkl",
        s3_model_path := "model.pkl", accuracy_discrepancy := mkRat (-1) 10 }
      rfl rfl rfl rfl rfl rfl).1

/- ## C6 - validation failure is non-fatal -/

/-- C6: a validation artifact with `data_validation_status = false` never
halts the run: the transformation stage is started regardless of the
status, the later stages are started whenever their predecessors succeed,
and deployment still follows exactly the acceptance flag - the status bit
never enters the control flow after validation. -/
theorem C6_validation_failure_nonfatal (w : PipelineRun)
    (ia : DataIngestionArtifacts) (va : DataValidationArtifacts)
    (ta : DataTransformationArtifacts) (ma : ModelTrainingArtifacts)
    (ea : ModelEvaluationArtifacts)
    (hi : w.ingestion_result = Except.ok ia)
    (hv : w.validation_result ia = Except.ok va)
    (hst : va.data_validation_status = false)
    (ht : w.transformation_result ia va = Except.ok ta)
    (hm : w.training_result ta = Except.ok ma)
    (he : w.evaluation_result ia ta ma = Except.ok ea) :
    Stage.transformation ∈ (run_pipeline w).2
    ∧ Stage.training ∈ (run_pipeline w).2
    ∧ Stage.evaluation ∈ (run_pipeline w).2
    ∧ (ea.model_acceptance = false → (run_pipeline w).1 = Except.ok none) := by
  by_cases hacc : ea.model_acceptance
  · rcases hd : w.deployment_result ea with msg | da <;>
      simp [run_pipeline, hi, hv, ht, hm, he, hacc, hd]
  · rw [Bool.not_eq_true] at hacc
    simp [run_pipeline, hi, hv, ht, hm, he, hacc]

/-- A pipeline run whose validation reports a schema mismatch
(status false) while every stage still succeeds. -/
def statusFalsePipelineRun : PipelineRun :=
  { ingestion_result := Except.ok
      { train_filepath := "train.csv", test_filepath := "test.csv" },
    validation_result := fun _ => Except.ok
      { data_validation_status := false,
        data_validation_message := "Training data feature count mismatch with schema.",
        data_validation_report_filepath := "report.yaml" },
    transformation_result := fun _ _ => Except.ok
      { data_transformation_object_filepath := "obj",
        data_transformation_train_array_filepath := "train.npy",
        data_transformation_test_array_filepath := "test.npy" },
    training_result := fun _ => Except.ok
      { trained_model_filepath := "model.pkl", report_filepath := "report.yaml",
        classification_metrics_artifacts :=
          { accuracy := mkRat 9 10, precision_ := mkRat 9 10,
            recall_ := mkRat 9 10, log_loss_ := mkRat 1 10,
            f1_score_ := mkRat 9 10, roc_auc := mkRat 9 10 } },
    evaluation_result := fun _ _ _ => Except.ok
      { model_acceptance := false, trained_model_path := "model.pkl",
        s3_model_path := "model.pkl", accuracy_discrepancy := mkRat (-1) 10 },
    deployment_result := fun _ => Except.ok
      { bucket_name := "versich-treue", s3_model_path := "model.pkl" } }

theorem C6_validation_failure_nonfatal_witness :
    Stage.transformation ∈ (run_pipeline statusFalsePipelineRun).2 :=
  (C6_validation_failure_nonfatal statusFalsePipelineRun
      { train_filepath := "train.csv", test_filepath := "test.csv" }
      { data_validation_status := false,
        data_validation_message := "Training data feature count mismatch with schema.",
        data_validation_report_filepath := "report.yaml" }
      { data_transformation_object_filepath := "obj",
        data_transformation_train_array_filepath := "train.npy",
        data_transformation_test_array_filepath := "test.npy" }
      { trained_model_filepath := "model.pkl", report_filepath := "report.yaml",
        classification_metrics_artifacts :=
          { accuracy := mkRat 9 10, precision_ := mkRat 9 10,
            recall_ := mkRat 9 10, log_loss_ := mkRat 1 10,
            f1_score_ := mkRat 9 10, roc_auc := mkRat 9 10 } }
      { model_acceptance := false, trained_model_path := "model.pkl",
        s3_model_path := "model.pkl", accuracy_discrepancy := mkRat (-1) 10 }
      rfl rfl rfl rfl rfl rfl).1

/- ## C3 - training threshold gate -/

/-- C3: training fails closed below the threshold: when the computed
(rounded) test accuracy is below `threshold_accuracy` the component returns
the threshold error having performed no write (no model bundle, no report,
no artifact); with the unreachable threshold `1.1` this happens for every
data set, since the rounded accuracy never exceeds 1; and in a pipeline
whose training stage raises, the evaluation and deployment stages are never
started. -/
theorem C3_threshold_gate (cfg : ModelTrainingConfig) (y_true y_pred : List ℚ)
    (precisionScore recallScore loglossScore f1Score rocaucScore : ℚ)
    (w : PipelineRun) (ia : DataIngestionArtifacts) (va : DataValidationArtifacts)
    (ta : DataTransformationArtifacts) (msg : String)
    (hacc : round5 (accuracy_score y_true y_pred) < cfg.threshold_accuracy)
    (hi : w.ingestion_result = Except.ok ia)
    (hv : w.validation_result ia = Except.ok va)
    (ht : w.transformation_result ia va = Except.ok ta)
    (htr : w.training_result ta = Except.error msg) :
    initiate_model_training cfg y_true y_pred
        precisionScore recallScore loglossScore f1Score rocaucScore
      = (Except.error "Model accuracy below threshold", [])
    ∧ initiate_model_training { cfg with threshold_accuracy := mkRat 11 10 }
        y_true y_pred precisionScore recallScore loglossScore f1Score rocaucScore
      = (Except.error "Model accuracy below threshold", [])
    ∧ Stage.evaluation ∉ (run_pipeline w).2
    ∧ Stage.deployment ∉ (run_pipeline w).2 := by
  have hgate : round5 (accuracy_score y_true y_pred) < mkRat 11 10 := by
    have h1 : round5 (accuracy_score y_true y_pred) ≤ 1 :=
      round5_le_one (accuracy_score_le_one y_true y_pred)
    have h2 : (1 : ℚ) < mkRat 11 10 := by
      rw [Rat.mkRat_eq_div]
      norm_num
    exact lt_of_le_of_lt h1 h2
  refine ⟨?_, ?_, ?_, ?_⟩
  · simp [initiate_model_training, get_classification_report, hacc]
  · simp [initiate_model_training, get_classification_report, hgate]
  · simp [run_pipeline, hi, hv, ht, htr]
  · simp [run_pipeline, hi, hv, ht, htr]

/-- Training configuration for the threshold-gate witness. -/
def sampleTrainingConfig : ModelTrainingConfig :=
  { trained_model_filepath := "artifacts/run/model_training/trained_model/model.pkl",
    report_filepath := "artifacts/run/model_training/reports/report.yaml",
    threshold_accuracy := 1 }

/-- A pipeline run whose training stage raises the threshold error. -/
def trainingFailedPipelineRun : PipelineRun :=
  { ingestion_result := Except.ok
      { train_filepath := "train.csv", test_filepath := "test.csv" },
    validation_result := fun _ => Except.ok
      { data_validation_status := true, data_validation_message := "",
        data_validation_report_filepath := "report.yaml" },
    transformation_result := fun _ _ => Except.ok
      { data_transformation_object_filepath := "obj",
        data_transformation_train_array_filepath := "train.npy",
        data_transformation_test_array_filepath := "test.npy" },
    training_result := fun _ => Except.error "Model accuracy below threshold",
    evaluation_result := fun _ _ _ => Except.ok
      { model_acceptance := true, trained_model_path := "model.pkl",
        s3_model_path := "model.pkl", accuracy_discrepancy := 0 },
    deployment_result := fun _ => Except.ok
      { bucket_name := "versich-treue", s3_model_path := "model.pkl" } }

theorem C3_threshold_gate_witness :
    initiate_model_training sampleTrainingConfig [0] [1] 0 0 0 0 0
      = (Except.error "Model accuracy below threshold", [])
    ∧ Stage.evaluation ∉ (run_pipeline trainingFailedPipelineRun).2 :=
  have h := C3_threshold_gate sampleTrainingConfig [0] [1] 0 0 0 0 0
    trainingFailedPipelineRun
    { train_filepath := "train.csv", test_filepath := "test.csv" }
    { data_validation_status := true, data_validation_message := "",
      data_validation_report_filepath := "report.yaml" }
    { data_transformation_object_filepath := "obj",
      data_transformation_train_array_filepath := "train.npy",
      data_transformation_test_array_filepath := "test.npy" }
    "Model accuracy below threshold"
    (by simp [accuracy_score, round5_zero, sampleTrainingConfig])
    rfl rfl rfl rfl
  ⟨h.1, h.2.2.1⟩

/- ## C1 - the evaluation gate -/

/-- C1 fails as stated: with no remote model and trained accuracy 0 (which
reaches evaluation whenever the configured threshold is 0), the returned
result has `model_acceptance = false`, although the claim promises
acceptance for every run without a remote model; the acceptance the code
computes there is the strict comparison `0 > 0.0`. -/
theorem C1_gate_counterexample :
    evaluate_model sampleEvalConfig 0 false
      = Except.ok
          { response :=
              { model_acceptance := false,
                trained_model_f1_score := 0,
                fetched_model_f1_score := 0,
                accuracy_discrepancy := 0 },
            report :=
              { modelAccepted := false,
                trainedModelF1 := 0,
                fetchedModelF1 := 0,
                accuracyDiscrepancy := 0 },
            effects :=
              [Effect.writeJson sampleEvalConfig.model_evaluation_report_filepath] } := by
  simp [evaluate_model, round5_zero]

/-- C1 (amended): a run of `evaluate_model` returns a result only when no
remote model exists at the configured bucket/key; that result takes the
incumbent accuracy as `0.0`, so `model_acceptance` equals the strict
comparison of the trained accuracy against `0.0` - true iff the trained
accuracy is strictly positive - and `accuracy_discrepancy` equals the
trained accuracy.  When a remote model exists, the scoring call
`s3_model.predict(X=X_test)` raises (`S3Estimator.predict` accepts `df`),
so `evaluate_model` raises a wrapped exception and returns no result. -/
theorem C1_gate_amended (cfg : ModelEvaluationConfig) (t : ℚ) :
    evaluate_model cfg t false
      = Except.ok
          { response :=
              { model_acceptance := decide (0 < t),
                trained_model_f1_score := t,
                fetched_model_f1_score := 0,
                accuracy_discrepancy := t },
            report :=
              { modelAccepted := decide (0 < t),
                trainedModelF1 := 0,
                fetchedModelF1 := 0,
                accuracyDiscrepancy := round5 t },
            effects := [Effect.writeJson cfg.model_evaluation_report_filepath] }
    ∧ evaluate_model cfg t true
      = Except.error
          (PyExc.myException (PyExc.typeError "unexpected keyword argument X")) := by
  constructor
  · simp [evaluate_model, round5_zero]
  · rfl

/- ## C5 - the evaluation report -/

/-- C5: the report written by `evaluate_model` does not record the trained
model's accuracy: at trained accuracy 9/10 with no incumbent, the report
field labelled as the trained model's score holds 0 - the substituted
incumbent score - although the response carries the trained accuracy 9/10;
the acceptance flag, the incumbent accuracy and the discrepancy are
recorded as specified. -/
theorem C5_report_trained_field_bug :
    evaluate_model sampleEvalConfig (mkRat 9 10) false
      = Except.ok
          { response :=
              { model_acceptance := true,
                trained_model_f1_score := mkRat 9 10,
                fetched_model_f1_score := 0,
                accuracy_discrepancy := mkRat 9 10 },
            report :=
              { modelAccepted := true,
                trainedModelF1 := 0,
                fetchedModelF1 := 0,
                accuracyDiscrepancy := mkRat 9 10 },
            effects :=
              [Effect.writeJson sampleEvalConfig.model_evaluation_report_filepath] }
    ∧ (mkRat 9 10 : ℚ) ≠ 0 := by
  have hpos : ((0 : ℚ) < mkRat 9 10) := by
    rw [Rat.mkRat_eq_div]
    norm_num
  refine ⟨?_, by decide⟩
  simp [evaluate_model, round5_zero, round5_nine_tenths, hpos]

/- ## C7 - validation status equals buffer emptiness -/

theorem features_count_validate_iff (schema : SchemaConfig) (df : Df) :
    features_count_validate schema df = true ↔
      df.cols.length = schema.features.length := by
  simp [features_count_validate]

theorem features_exist_iff (schema : SchemaConfig) (df : Df) :
    features_exist schema df = true ↔
      ((∀ f ∈ schema.numerical_features, f ∈ df.cols)
        ∧ (∀ f ∈ schema.categorical_features, f ∈ df.cols)) := by
  simp [features_exist, List.length_eq_zero, List.filter_eq_nil_iff]

set_option maxRecDepth 20000 in
theorem validationBuffer_facts (schema : SchemaConfig) (train_df test_df : Df) :
    (((validationBuffer schema train_df test_df).length == 0)
       = (features_count_validate schema train_df && features_exist schema train_df
          && features_count_validate schema test_df && features_exist schema test_df))
    ∧ (pyStrip (validationBuffer schema train_df test_df) = ""
       ↔ (features_count_validate schema train_df && features_exist schema train_df
          && features_count_validate schema test_df && features_exist schema test_df)
           = true) := by
  unfold validationBuffer
  cases features_count_validate schema train_df <;>
    cases features_exist schema train_df <;>
    cases features_count_validate schema test_df <;>
    cases features_exist schema test_df <;>
    exact ⟨rfl, by decide⟩

/-- C7: validation status is exactly emptiness of the message buffer: the
artifact's status is true precisely when both partitions pass the
feature-count check and carry every configured numerical and categorical
feature - row contents never enter the checks - and then the artifact
message is empty; whenever any of the four checks fails the status is false
and the message is non-empty. -/
theorem C7_validation_status_iff (schema : SchemaConfig)
    (cfg : DataValidationConfig) (train_df test_df : Df) :
    ((initiate_data_validation schema cfg train_df test_df).1.data_validation_status
        = true
      ↔ (train_df.cols.length = schema.features.length
        ∧ (∀ f ∈ schema.numerical_features, f ∈ train_df.cols)
        ∧ (∀ f ∈ schema.categorical_features, f ∈ train_df.cols)
        ∧ test_df.cols.length = schema.features.length
        ∧ (∀ f ∈ schema.numerical_features, f ∈ test_df.cols)
        ∧ (∀ f ∈ schema.categorical_features, f ∈ test_df.cols)))
    ∧ ((initiate_data_validation schema cfg train_df test_df).1.data_validation_status
          = true
        → (initiate_data_validation schema cfg train_df test_df).1.data_validation_message
          = "")
    ∧ ((initiate_data_validation schema cfg train_df test_df).1.data_validation_status
          = false
        → (initiate_data_validation schema cfg train_df test_df).1.data_validation_message
          ≠ "") := by
  have hs : (initiate_data_validation schema cfg train_df test_df).1.data_validation_status
      = ((validationBuffer schema train_df test_df).length == 0) := rfl
  have hm : (initiate_data_validation schema cfg train_df test_df).1.data_validation_message
      = pyStrip (validationBuffer schema train_df test_df) := rfl
  have hf := validationBuffer_facts schema train_df test_df
  refine ⟨?_, ?_, ?_⟩
  · rw [hs, hf.1]
    simp only [Bool.and_eq_true, features_count_validate_iff, features_exist_iff]
    tauto
  · intro h
    rw [hm]
    apply hf.2.mpr
    rw [hs, hf.1] at h
    exact h
  · intro h hmsg
    rw [hm] at hmsg
    have hb := hf.2.mp hmsg
    rw [hs, hf.1] at h
    rw [hb] at h
    simp at h

/-- Schema sample used by the validation witness. -/
def sampleSchemaConfig : SchemaConfig :=
  { features := ["Gender", "Age", "Response"],
    numerical_features := ["Age"],
    categorical_features := ["Gender"] }

theorem C7_validation_status_iff_witness :
    (initiate_data_validation sampleSchemaConfig
        (DataValidationConfig.mk "report.yaml")
        (Df.mk ["Gender", "Age", "Response"] [["Male", "44", "1"]])
        (Df.mk ["Gender", "Age", "Response"] [])).1.data_validation_message = "" :=
  (C7_validation_status_iff sampleSchemaConfig
      (DataValidationConfig.mk "report.yaml")
      (Df.mk ["Gender", "Age", "Response"] [["Male", "44", "1"]])
      (Df.mk ["Gender", "Age", "Response"] [])).2.1 (by decide)

/- ## Application witnesses for the hypothesis-free claim theorems -/

theorem C1_gate_amended_witness :
    evaluate_model sampleEvalConfig 1 false
      = Except.ok
          { response :=
              { model_acceptance := decide ((0 : ℚ) < 1),
                trained_model_f1_score := 1,
                fetched_model_f1_score := 0,
                accuracy_discrepancy := 1 },
            report :=
              { modelAccepted := decide ((0 : ℚ) < 1),
                trainedModelF1 := 0,
                fetchedModelF1 := 0,
                accuracyDiscrepancy := round5 1 },
            effects :=
              [Effect.writeJson sampleEvalConfig.model_evaluation_report_filepath] } :=
  (C1_gate_amended sampleEvalConfig 1).1

theorem C4_empty_fetch_witness :
    initiate_data_ingestion sampleIngestionConfig (Df.mk ["Age"] []) 5
      = (Except.error "Exported dataframe is empty.",
         [Effect.makeDirs (dirname sampleIngestionConfig.data_filepath),
          Effect.writeCsv sampleIngestionConfig.data_filepath]) :=
  C4_empty_fetch_aborts_after_feature_store sampleIngestionConfig ["Age"] 5

theorem C8_split_deterministic_witness :
    train_test_splitting sampleIngestionConfig
        (Df.mk ["Age"] [["1"], ["2"], ["3"]]) 3
      = train_test_splitting sampleIngestionConfig
        (Df.mk ["Age"] [["1"], ["2"], ["3"]]) 7 :=
  C8_split_deterministic sampleIngestionConfig
    (Df.mk ["Age"] [["1"], ["2"], ["3"]]) 3 7

theorem C10_load_model_never_returns_witness :
    S3Estimator.load_model Unit false
      = Except.error (PyExc.myException (PyExc.nameError "e")) :=
  (C10_load_model_never_returns Unit false Unit.unit).1
